import Mathlib

/-!
Verification of the e4s-cl execute pipeline: the host/guest compatibility
selector, the binding ledger, the library import step and the entry-script
lifecycle, embedded from `e4s_cl/cli/commands/__execute.py` and, for the
parts of the repository whose sources are not available here (the container
abstraction, the library set and the shifter configuration parser), modelled
from the specification's description of them.
-/

/- ## Paths

Filesystem paths are modelled as lists of components; an absolute path such
as `/tmp` is `["", "tmp"]`, so that joining with "/" restores the POSIX text. -/

abbrev PathT := List String

/-- `Path(...).name` of Python's pathlib: the final path component. -/
def pathName (p : PathT) : String := p.getLast?.getD ""

/-- Text pieces joined with a separator between them. -/
def joinWith (sep : String) : List String → String
  | [] => ""
  | [x] => x
  | x :: xs => x ++ sep ++ joinWith sep xs

/-- `Path.as_posix()`: the components joined by "/". -/
def pathPosix (p : PathT) : String := joinWith "/" p

/-- Collapse `.` and `..` segments of a path, as the ledger's source
canonicalization does for relative segments. -/
def normalizePath (p : PathT) : PathT :=
  p.foldl
    (fun acc c =>
      if c = "." then acc
      else if c = ".." then acc.dropLast
      else acc ++ [c])
    []

/- ## Binding ledger / container abstraction -/

/-- Access modes of a bound file (`e4s_cl.cf.containers.FileOptions`). -/
inductive FileOptions
  | READ_ONLY
  | READ_WRITE
deriving DecidableEq

/-- One record of the binding ledger: `(source, dest, access mode)`. -/
structure BindRecord where
  src : PathT
  dest : PathT
  opt : FileOptions
deriving DecidableEq

/-- Modelled from the spec: the Container of `e4s_cl.cf.containers`, whose
source is not in this tree.  It carries the binding ledger `bound`, the
reserved in-container import directory, the guest libc version populated by
introspection, and the in-container path reserved for the entry script. -/
structure Container where
  bound : List BindRecord
  import_library_dir : PathT
  libc_v : List Nat
  script : PathT
deriving DecidableEq

/-- Modelled from the spec: `Container.bind_file(source, dest=source,
option=READ_ONLY)` canonicalizes the source and appends
`(canonical_source, dest, option)` to the ledger; the ledger is append-only
and never deduplicated. -/
def Container.bind_file (c : Container) (src : PathT) (dest : Option PathT)
    (opt : FileOptions) : Container :=
  { c with bound := c.bound ++ [⟨normalizePath src, dest.getD src, opt⟩] }

/- ## Versions

libc versions compare as Python tuples of integers do: lexicographically,
a shorter tuple losing to its extensions. -/

/-- Strict lexicographic order on version tuples. -/
def verLt : List Nat → List Nat → Bool
  | [], [] => false
  | [], _ :: _ => true
  | _ :: _, [] => false
  | a :: as, b :: bs => if a < b then true else if b < a then false else verLt as bs

/-- `x > y` on version tuples. -/
def verGt (x y : List Nat) : Bool := verLt y x

/- ## Libraries -/

/-- Modelled from the spec: one shared object of the library set
(`sotools.libraryset.Library`, not in this tree).  `binary_path` is the
resolved canonical file (the name the execute command reads), `aliases` the
other symlink paths resolving to the same file, `dependencies` the
identifiers of the libraries it requires, and the two flags mark the
libc family and the dynamic loader. -/
structure Library where
  binary_path : PathT
  aliases : List PathT
  dependencies : List String
  is_libc_family : Bool
  is_linker : Bool
deriving DecidableEq

/-- A LibrarySet, as the list of its member libraries. -/
abbrev LibrarySet := List Library

/-- Modelled from the spec: the `glib` view — members of the libc family. -/
def glib (s : LibrarySet) : LibrarySet := s.filter (·.is_libc_family)

/-- Modelled from the spec: the `linkers` view — members that are the
dynamic loader. -/
def linkers (s : LibrarySet) : LibrarySet := s.filter (·.is_linker)

/-- Modelled from the spec: a member `m` references a library `l` when its
dependency identifiers name `l`'s canonical path or one of its aliases. -/
def referencesLib (m l : Library) : Bool :=
  m.dependencies.any fun d =>
    d = pathPosix l.binary_path || (l.aliases.map pathPosix).contains d

/-- Modelled from the spec: the `top_level` view — libraries referenced by
no other member of the set. -/
def top_level (s : LibrarySet) : LibrarySet :=
  s.filter fun l => !(s.any fun m => decide (m ≠ l) && referencesLib m l)

/-- Modelled from the spec: `library_links` of `e4s_cl.cf.libraries` (not in
this tree) — the canonical file together with every symlink pointing to it. -/
def library_links (lib : Library) : List PathT :=
  lib.binary_path :: lib.aliases

/- ## Entrypoint -/

/-- Modelled from the spec: the Entrypoint descriptor of
`e4s_cl.cf.template` (not in this tree), with the fields the execute
command reads and writes. -/
structure Entrypoint where
  source_script_path : Option PathT
  command : List String
  preload : List String
  library_dir : String
  linker : Option String
  debug : Bool
deriving DecidableEq

/-- A fresh `Entrypoint()`: every field empty or unset. -/
def Entrypoint.init : Entrypoint :=
  { source_script_path := none
    command := []
    preload := []
    library_dir := ""
    linker := none
    debug := false }

/- ## The execute command's library plumbing (`__execute.py`) -/

/-- `import_library(shared_object, container)`: bind the shared object and
every symbolic link pointing at the same file into the import directory,
each under its own file name. -/
def import_library (shared_object : Library) (container : Container) : Container :=
  (library_links shared_object).foldl
    (fun c file =>
      c.bind_file file (some (c.import_library_dir ++ [pathName file]))
        FileOptions.READ_ONLY)
    container

/-- `filter_libraries(library_set, container, entrypoint)`: drop the
libc-tied libraries (the `glib` view, the linker included) from a copy of
the set; container and entrypoint are untouched. -/
def filter_libraries (library_set : LibrarySet) (container : Container)
    (entrypoint : Entrypoint) : LibrarySet × Container × Entrypoint :=
  (library_set.filter fun l => !l.is_libc_family, container, entrypoint)

/-- The error raised by the execute pipeline's embedded steps. -/
inductive ExecErr
  | ambiguousLinker (count : Nat)
  | backendFailure
deriving DecidableEq

/-- One turn of the loop of `overlay_libraries` (lines 77-82): point
`entrypoint.linker` at the linker's future path inside the import directory
and bind the linker binary there. -/
def overlayStep (ce : Container × Entrypoint) (linker : Library) :
    Container × Entrypoint :=
  let dest := ce.1.import_library_dir ++ [pathName linker.binary_path]
  (ce.1.bind_file linker.binary_path (some dest) FileOptions.READ_ONLY,
   { ce.2 with linker := some (pathPosix dest) })

/-- `overlay_libraries(library_set, container, entrypoint)`: keep the whole
set; raise `InternalError` unless exactly one linker is present; for the
linker, point `entrypoint.linker` at its future path inside the import
directory and bind the linker binary there. -/
def overlay_libraries (library_set : LibrarySet) (container : Container)
    (entrypoint : Entrypoint) :
    Except ExecErr (LibrarySet × Container × Entrypoint) :=
  let selected := library_set
  if (linkers library_set).length ≠ 1 then
    .error (.ambiguousLinker (linkers library_set).length)
  else
    let final := (linkers library_set).foldl overlayStep
      (container, entrypoint)
    .ok (selected, final.1, final.2)

/-- The compatibility decision, derived and never stored. -/
inductive CompatibilityDecision
  | OVERLAY
  | FILTER
deriving DecidableEq

/-- The branch `select_libraries` takes for a host/guest version pair:
`host_precedence = host_libc > guest_libc` picks the overlay method,
its negation the filter method. -/
def selectDecision (host_libc guest_libc : List Nat) : CompatibilityDecision :=
  if verGt host_libc guest_libc then .OVERLAY else .FILTER

/-- `select_libraries(library_set, container, entrypoint)`: compare the host
libc version against the guest's (`container.libc_v`) and dispatch to
`overlay_libraries` when the host is strictly newer, `filter_libraries`
otherwise.  The host version, read by `libc_version()` in the source, is an
explicit argument here. -/
def select_libraries (library_set : LibrarySet) (container : Container)
    (entrypoint : Entrypoint) (host_libc : List Nat) :
    Except ExecErr (LibrarySet × Container × Entrypoint) :=
  let guest_libc := container.libc_v
  let host_precedence := verGt host_libc guest_libc
  if host_precedence then overlay_libraries library_set container entrypoint
  else .ok (filter_libraries library_set container entrypoint)

/- ## Shifter site-configuration parsing

Modelled from the spec: `_parse_config` and `organize_config` of
`e4s_cl.cf.containers.shifter` are not in this tree; their behaviour is
taken from the specification's description of the flat site-configuration
text format, corroborated by `tests/test_containers_shifter.py`. -/

/-- Surrounding whitespace stripped, as Python's `str.strip()` does. -/
def trimStr (s : String) : String :=
  String.mk (((s.data.dropWhile Char.isWhitespace).reverse.dropWhile
    Char.isWhitespace).reverse)

/-- The line's text ends in a backslash. -/
def endsWithBackslash (l : String) : Bool :=
  l.data.getLast? == some '\\'

/-- Modelled from the spec: a line whose text ends in a backslash continues
onto the next line; the two are joined without the backslash or newline,
and the joined line is examined again.  The fuel argument (one unit per
physical line) only makes the recursion structural. -/
def joinContF : Nat → List String → List String
  | _, [] => []
  | _, [l] => [l]
  | 0, ls => ls
  | fuel + 1, l :: l2 :: rest =>
    if endsWithBackslash l then joinContF fuel ((l.dropRight 1 ++ l2) :: rest)
    else l :: joinContF fuel (l2 :: rest)

/-- The configuration's logical lines: physical lines with continuations
joined. -/
def joinCont (ls : List String) : List String := joinContF ls.length ls

/-- The text split at every occurrence of a character; the separators are
dropped and the pieces between them kept, as Python's `str.split` with a
one-character separator does. -/
def splitOnChar (sep : Char) : List Char → List (List Char)
  | [] => [[]]
  | c :: cs =>
    if c = sep then [] :: splitOnChar sep cs
    else
      match splitOnChar sep cs with
      | [] => [[c]]
      | g :: gs => (c :: g) :: gs

/-- The text's pieces between occurrences of a character, as strings. -/
def splitStr (sep : Char) (s : String) : List String :=
  (splitOnChar sep s.data).map String.mk

/-- Modelled from the spec: a logical line holding an `=` yields the pair of
its key (text before the first `=`) and value (text after it), both
whitespace-trimmed; a line with no `=` yields nothing and is dropped. -/
def parseLine (l : String) : Option (String × String) :=
  match splitStr '=' l with
  | [] => none
  | [_] => none
  | k :: rest => some (trimStr k, trimStr (joinWith "=" rest))

/-- Modelled from the spec: one parse pass over the configuration's logical
lines — every physical line trimmed of surrounding blanks (the expected
test output joins `/path1:/path1;\` with an indented `    /path2:/path2;`
into `/path1:/path1;/path2:/path2;`), continuations joined, each
`key=value` line one entry, malformed lines silently dropped. -/
def parseLines (ls : List String) : List (String × String) :=
  (joinCont (ls.map trimStr)).filterMap parseLine

/-- Modelled from the spec: `_parse_config` on a configuration text, split
into physical lines at newlines. -/
def parse_config (text : String) : List (String × String) :=
  parseLines (text.splitOn "\n")

/-- Modelled from the spec: recognize a key of the shape
`module_<name>_<key>` and split it into the pair `(<name>, <key>)`. -/
def splitModuleKey (k : String) : Option (String × String) :=
  if k.take 7 = "module_" then
    match splitStr '_' (k.drop 7) with
    | [] => none
    | [_] => none
    | n :: rest => some (n, joinWith "_" rest)
  else none

/-- Modelled from the spec: `organize_config` rewrites every
`module_<name>_<key>` entry of the flat mapping into the nested
module-scoped mapping, leaving the other entries flat: the result is the
flat mapping without the module keys alongside the `(name, key, value)`
triples of the nested mapping. -/
def organize_config (directives : List (String × String)) :
    List (String × String) × List (String × String × String) :=
  (directives.filter fun kv => (splitModuleKey kv.1).isNone,
   directives.filterMap fun kv =>
     (splitModuleKey kv.1).map fun nk => (nk.1, nk.2, kv.2))

/- ## The execute command's main flow

`ExecuteCommand.main` of `__execute.py`, embedded with WI4MPI disabled (the
WI4MPI helpers are outside this spec's scope and return their inert values
when the feature is off) and the container successfully constructed.  The
dependency resolver `LibrarySet.create_from` is not in this tree, so the
resolved set is an explicit argument; `container.run`'s outcome (an exit
code, or an exception such as a backend failure or a delivered signal) is
an explicit argument as well. -/

/-- One observable step of the execute command, in program order. -/
inductive Ev
  | bindEv (src dest : PathT) (opt : FileOptions)
  | resolveEv
  | getDataEv
  | selectEv
  | setupEv
  | runEv
  | teardownEv
deriving DecidableEq

/-- The ledger record of a bind, as an observed event. -/
def recordEv (r : BindRecord) : Ev := .bindEv r.src r.dest r.opt

/-- The bind events a phase appended to the ledger: the records grown past
the older container's ledger. -/
def bindEvents (cOld cNew : Container) : List Ev :=
  (cNew.bound.drop cOld.bound.length).map recordEv

deriving instance DecidableEq for Except

/-- What a run of the execute command leaves behind: the observed event
trace, the final container and entrypoint, and the command's outcome. -/
structure MainOut where
  events : List Ev
  container : Container
  entry : Entrypoint
  result : Except ExecErr Int
deriving DecidableEq

/-- The `--files` loop of `main` (lines 185-187): every path bound into the
container with READ_WRITE access and the default destination. -/
def bindFiles (files : List PathT) (c : Container) : Container :=
  files.foldl (fun cc p => cc.bind_file p none FileOptions.READ_WRITE) c

/-- The entrypoint as `main` has populated it before selection: a fresh
`Entrypoint()` whose sourced-script path (line 190), command, debug flag and
library directory (lines 204-206) are set. -/
def mainEntry (src_script : Option PathT) (cmd : List String) (debug : Bool)
    (c : Container) : Entrypoint :=
  { Entrypoint.init with
    source_script_path := src_script
    command := cmd
    debug := debug
    library_dir := pathPosix c.import_library_dir }

/-- The tail of `ExecuteCommand.main` after the `--files` binds and the
library resolution: introspect the guest when the resolved set is not
empty, select and import the libraries, append the top-level future paths
to the preload list, write and bind the entry script, then either report
the dry run and tear down, or run the container command and tear down —
unless `run` raises, in which case the error propagates with no teardown.
Events and ledger records of the earlier phases are not included. -/
def mainAfterFiles (src_script : Option PathT) (cmd : List String)
    (debug : Bool) (libset : LibrarySet) (host_libc : List Nat)
    (c1 : Container) (scriptName : PathT) (dryRun : Bool)
    (runOutcome : Except ExecErr Int) : MainOut :=
  let evIntro := if libset.isEmpty then [] else [Ev.getDataEv]
  let e2 := mainEntry src_script cmd debug c1
  let selected : Except ExecErr (LibrarySet × Container × Entrypoint) :=
    if libset.isEmpty then .ok (libset, c1, e2)
    else select_libraries libset c1 e2 host_libc
  let evSelect := if libset.isEmpty then [] else [Ev.selectEv]
  match selected with
  | .error err =>
    { events := evIntro ++ evSelect
      container := c1
      entry := e2
      result := .error err }
  | .ok (sel, c2, e3) =>
    let c3 := if libset.isEmpty then c2
      else sel.foldl (fun c so => import_library so c) c2
    let e4 := if libset.isEmpty then e3
      else { e3 with
        preload := e3.preload ++ (top_level sel).map fun l =>
          pathPosix (c2.import_library_dir ++ [pathName l.binary_path]) }
    let c4 := c3.bind_file scriptName (some c3.script) FileOptions.READ_ONLY
    let evHead := evIntro ++ evSelect ++ bindEvents c1 c3 ++ [Ev.setupEv] ++
      bindEvents c3 c4
    if dryRun then
      { events := evHead ++ [Ev.teardownEv]
        container := c4
        entry := e4
        result := .ok 0 }
    else
      match runOutcome with
      | .error err =>
        { events := evHead ++ [Ev.runEv]
          container := c4
          entry := e4
          result := .error err }
      | .ok code =>
        { events := evHead ++ [Ev.runEv, Ev.teardownEv]
          container := c4
          entry := e4
          result := .ok code }

/-- `ExecuteCommand.main`, embedded with WI4MPI disabled and the container
successfully constructed: first the `--files` binds, then the library
resolution (`libset` is the resolver's output for the `--libraries`
arguments), then everything else. -/
def mainExec (files : List PathT) (src_script : Option PathT)
    (cmd : List String) (debug : Bool) (libset : LibrarySet)
    (host_libc : List Nat) (c0 : Container) (scriptName : PathT)
    (dryRun : Bool) (runOutcome : Except ExecErr Int) : MainOut :=
  let c1 := bindFiles files c0
  let out := mainAfterFiles src_script cmd debug libset host_libc c1
    scriptName dryRun runOutcome
  { out with events := bindEvents c0 c1 ++ Ev.resolveEv :: out.events }

/- ## Helper lemmas -/

theorem verLt_irrefl (v : List Nat) : verLt v v = false := by
  induction v with
  | nil => rfl
  | cons a as ih => simp [verLt, ih]

theorem pathName_concat (xs : List String) (x : String) :
    pathName (xs ++ [x]) = x := by
  simp [pathName, List.getLast?_concat]

theorem bind_file_bound (c : Container) (src : PathT) (dest : Option PathT)
    (opt : FileOptions) :
    (c.bind_file src dest opt).bound =
      c.bound ++ [⟨normalizePath src, dest.getD src, opt⟩] := rfl

theorem bind_fold_files (files : List PathT) (c : Container) :
    files.foldl (fun cc p => cc.bind_file p none FileOptions.READ_WRITE) c =
      { c with bound := c.bound ++ files.map fun p =>
          ⟨normalizePath p, p, FileOptions.READ_WRITE⟩ } := by
  induction files generalizing c with
  | nil => simp
  | cons p ps ih =>
    rw [List.foldl_cons, ih]
    simp [Container.bind_file]

/-- The ledger records `import_library` produces for one shared object. -/
def importRecords (dir : PathT) (so : Library) : List BindRecord :=
  (library_links so).map fun f =>
    ⟨normalizePath f, dir ++ [pathName f], FileOptions.READ_ONLY⟩

theorem bind_fold_links (fs : List PathT) (c : Container) :
    fs.foldl (fun cc f =>
        cc.bind_file f (some (cc.import_library_dir ++ [pathName f]))
          FileOptions.READ_ONLY) c =
      { c with bound := c.bound ++ fs.map fun f =>
          ⟨normalizePath f, c.import_library_dir ++ [pathName f],
            FileOptions.READ_ONLY⟩ } := by
  induction fs generalizing c with
  | nil => simp
  | cons f fs ih =>
    rw [List.foldl_cons, ih]
    simp [Container.bind_file]

theorem import_library_eq (lib : Library) (c : Container) :
    import_library lib c =
      { c with bound := c.bound ++ importRecords c.import_library_dir lib } :=
  bind_fold_links (library_links lib) c

theorem import_fold_eq (sel : LibrarySet) (c : Container) :
    sel.foldl (fun cc so => import_library so cc) c =
      { c with bound := c.bound ++
          (sel.map (importRecords c.import_library_dir)).flatten } := by
  induction sel generalizing c with
  | nil => simp
  | cons so rest ih =>
    rw [List.foldl_cons, import_library_eq, ih]
    simp

theorem select_filter_eq (ls : LibrarySet) (c : Container) (e : Entrypoint)
    (host : List Nat) (h : verGt host c.libc_v = false) :
    select_libraries ls c e host =
      .ok (ls.filter fun l => !l.is_libc_family, c, e) := by
  simp [select_libraries, filter_libraries, h]

theorem select_overlay_one (ls : LibrarySet) (c : Container) (e : Entrypoint)
    (host : List Nat) (linker : Library) (h : verGt host c.libc_v = true)
    (hl : linkers ls = [linker]) :
    select_libraries ls c e host =
      .ok (ls,
        { c with bound := c.bound ++
            [⟨normalizePath linker.binary_path,
              c.import_library_dir ++ [pathName linker.binary_path],
              FileOptions.READ_ONLY⟩] },
        { e with linker := some (pathPosix
            (c.import_library_dir ++ [pathName linker.binary_path])) }) := by
  simp [select_libraries, overlay_libraries, overlayStep, h, hl,
    Container.bind_file]

theorem select_overlay_err (ls : LibrarySet) (c : Container) (e : Entrypoint)
    (host : List Nat) (h : verGt host c.libc_v = true)
    (hn : (linkers ls).length ≠ 1) :
    select_libraries ls c e host =
      .error (.ambiguousLinker (linkers ls).length) := by
  simp [select_libraries, overlay_libraries, h, hn]

/- ## Claim theorems -/

/-- C1: For every pair of libc versions, the compatibility selector chooses
OVERLAY exactly when the host version is strictly greater than the guest
version, and FILTER otherwise; in particular, when host and guest versions
are equal it chooses FILTER.  The spec's examples: `select(2.31, 2.17) =
OVERLAY`, `select(2.17, 2.31) = FILTER`, `select(2.28, 2.28) = FILTER`;
`select_libraries` dispatches on exactly this decision. -/
theorem C1_compatibility_decision :
    (∀ host guest : List Nat,
      selectDecision host guest = CompatibilityDecision.OVERLAY ↔
        verGt host guest = true) ∧
    (∀ v : List Nat, selectDecision v v = CompatibilityDecision.FILTER) ∧
    selectDecision [2, 31] [2, 17] = CompatibilityDecision.OVERLAY ∧
    selectDecision [2, 17] [2, 31] = CompatibilityDecision.FILTER ∧
    selectDecision [2, 28] [2, 28] = CompatibilityDecision.FILTER ∧
    (∀ (ls : LibrarySet) (c : Container) (e : Entrypoint) (host : List Nat),
      select_libraries ls c e host =
        if selectDecision host c.libc_v = CompatibilityDecision.OVERLAY then
          overlay_libraries ls c e
        else Except.ok (filter_libraries ls c e)) := by
  refine ⟨?_, ?_, by decide, by decide, by decide, ?_⟩
  · intro host guest
    by_cases h : verGt host guest <;> simp [selectDecision, h]
  · intro v
    simp [selectDecision, verGt, verLt_irrefl]
  · intro ls c e host
    by_cases h : verGt host c.libc_v <;>
      simp [select_libraries, selectDecision, h]

/-- C7: The binding ledger is append-only and never deduplicates: every
`bind_file` call appends its `(canonical source, dest, option)` record to
the ledger, and after `bind_file(/tmp)` followed by `bind_file(/tmp,
dest=/tmp, option=READ_WRITE)` both the READ_ONLY and the READ_WRITE
record are present, for every container instance. -/
theorem C7_ledger_append_only :
    (∀ (c : Container) (src : PathT) (dest : Option PathT) (opt : FileOptions),
      (c.bind_file src dest opt).bound =
        c.bound ++ [⟨normalizePath src, dest.getD src, opt⟩]) ∧
    (∀ c : Container,
      (⟨["", "tmp"], ["", "tmp"], FileOptions.READ_ONLY⟩ : BindRecord) ∈
        ((c.bind_file ["", "tmp"] none FileOptions.READ_ONLY).bind_file
          ["", "tmp"] (some ["", "tmp"]) FileOptions.READ_WRITE).bound ∧
      (⟨["", "tmp"], ["", "tmp"], FileOptions.READ_WRITE⟩ : BindRecord) ∈
        ((c.bind_file ["", "tmp"] none FileOptions.READ_ONLY).bind_file
          ["", "tmp"] (some ["", "tmp"]) FileOptions.READ_WRITE).bound) := by
  refine ⟨fun c src dest opt => rfl, fun c => ⟨?_, ?_⟩⟩ <;>
  · simp [Container.bind_file]
    exact Or.inr (by decide)

/-- The sample shifter configuration of
`tests/test_containers_shifter.py`, as its physical lines. -/
def sampleConfigLines : List String :=
  ["#system (required)",
   "#",
   "# Name of your system, e.g., edison or cori. This name must match a configured ",
   "# system in the imagegw. This is primarily used by shifterimg to self-identify ",
   "# which system it is representing.",
   "#",
   "system=perlmutter",
   "siteFs=/path1:/path1;\\",
   "    /path2:/path2;",
   "siteEnv=SHIFTER_RUNTIME=1",
   "module_test_siteFs = test",
   "this line is an issue and should be dropped",
   ""]

theorem joinCont_cons_noBS (a : String) (xs : List String)
    (h : endsWithBackslash a = false) :
    joinCont (a :: xs) = a :: joinCont xs := by
  cases xs with
  | nil => rfl
  | cons b rest => simp [joinCont, joinContF, h]

theorem joinCont_cons_bs (l1 l2 : String) (rest : List String)
    (h : endsWithBackslash l1 = true) :
    joinCont (l1 :: l2 :: rest) =
      joinCont ((l1.dropRight 1 ++ l2) :: rest) := by
  simp [joinCont, joinContF, h]

/-- C8: Parsing the site-configuration text yields one mapping entry per
`key=value` logical line; a line ending in a backslash is joined with the
next line without the backslash or newline; every key of the shape
`module_<name>_<key>` is rewritten into the nested mapping
`module.<name>.<key>`; and every line containing no `=` is silently dropped
while parsing continues.  Shown by the sequential parsing laws and by the
sample configuration of the shifter test, whose malformed line is absent
from the result. -/
theorem C8_config_parsing :
    parseLines sampleConfigLines =
      [("system", "perlmutter"), ("siteFs", "/path1:/path1;/path2:/path2;"),
       ("siteEnv", "SHIFTER_RUNTIME=1"), ("module_test_siteFs", "test")] ∧
    organize_config (parseLines sampleConfigLines) =
      ([("system", "perlmutter"), ("siteFs", "/path1:/path1;/path2:/path2;"),
        ("siteEnv", "SHIFTER_RUNTIME=1")], [("test", "siteFs", "test")]) ∧
    (∀ (l1 l2 : String) (rest : List String),
      endsWithBackslash l1 = true →
        joinCont (l1 :: l2 :: rest) =
          joinCont ((l1.dropRight 1 ++ l2) :: rest)) ∧
    (∀ (l : String) (ls : List String) (kv : String × String),
      parseLine (trimStr l) = some kv → endsWithBackslash (trimStr l) = false →
        parseLines (l :: ls) = kv :: parseLines ls) ∧
    (∀ (l : String) (ls : List String),
      parseLine (trimStr l) = none → endsWithBackslash (trimStr l) = false →
        parseLines (l :: ls) = parseLines ls) ∧
    (∀ (ds : List (String × String)) (k v n key : String),
      splitModuleKey k = some (n, key) →
        organize_config ((k, v) :: ds) =
          ((organize_config ds).1, (n, key, v) :: (organize_config ds).2)) := by
  refine ⟨by decide, by decide, joinCont_cons_bs, ?_, ?_, ?_⟩
  · intro l ls kv hsome hbs
    simp [parseLines, joinCont_cons_noBS _ _ hbs, hsome]
  · intro l ls hnone hbs
    simp [parseLines, joinCont_cons_noBS _ _ hbs, hnone]
  · intro ds k v n key h
    simp [organize_config, h]

theorem bindFiles_eq (files : List PathT) (c : Container) :
    bindFiles files c =
      { c with bound := c.bound ++ files.map fun p =>
          ⟨normalizePath p, p, FileOptions.READ_WRITE⟩ } :=
  bind_fold_files files c

theorem bindEvents_append (c : Container) (rs : List BindRecord) :
    bindEvents c { c with bound := c.bound ++ rs } = rs.map recordEv := by
  simp [bindEvents]

theorem overlayFold_frame (lks : List Library) (ce : Container × Entrypoint) :
    ∃ tail : List BindRecord,
      (lks.foldl overlayStep ce).1.bound = ce.1.bound ++ tail ∧
      (lks.foldl overlayStep ce).1.import_library_dir =
        ce.1.import_library_dir ∧
      (lks.foldl overlayStep ce).1.libc_v = ce.1.libc_v ∧
      (lks.foldl overlayStep ce).1.script = ce.1.script ∧
      (lks.foldl overlayStep ce).2.preload = ce.2.preload := by
  induction lks generalizing ce with
  | nil => exact ⟨[], by simp⟩
  | cons lk rest ih =>
    obtain ⟨tail, h1, h2, h3, h4, h5⟩ := ih (overlayStep ce lk)
    refine ⟨⟨normalizePath lk.binary_path,
      ce.1.import_library_dir ++ [pathName lk.binary_path],
      FileOptions.READ_ONLY⟩ :: tail, ?_, ?_, ?_, ?_, ?_⟩
    · rw [List.foldl_cons, h1]
      simp [overlayStep, Container.bind_file]
    · rw [List.foldl_cons, h2]
      simp [overlayStep, Container.bind_file]
    · rw [List.foldl_cons, h3]
      simp [overlayStep, Container.bind_file]
    · rw [List.foldl_cons, h4]
      simp [overlayStep, Container.bind_file]
    · rw [List.foldl_cons, h5]
      simp [overlayStep, Container.bind_file]

theorem select_ok_frame (ls : LibrarySet) (c : Container) (e : Entrypoint)
    (host : List Nat) (sel : LibrarySet) (c2 : Container) (e2 : Entrypoint)
    (h : select_libraries ls c e host = .ok (sel, c2, e2)) :
    (∃ tail, c2.bound = c.bound ++ tail) ∧
    c2.import_library_dir = c.import_library_dir ∧
    c2.libc_v = c.libc_v ∧ c2.script = c.script ∧
    e2.preload = e.preload := by
  by_cases hv : verGt host c.libc_v
  · by_cases hl : (linkers ls).length = 1
    · simp [select_libraries, overlay_libraries, hv, hl] at h
      obtain ⟨hsel, hfold⟩ := h
      obtain ⟨tail, h1, h2, h3, h4, h5⟩ :=
        overlayFold_frame (linkers ls) (c, e)
      rw [hfold] at h1 h2 h3 h4 h5
      exact ⟨⟨tail, h1⟩, h2, h3, h4, h5⟩
    · simp [select_libraries, overlay_libraries, hv, hl] at h
  · simp [select_libraries, filter_libraries, hv] at h
    obtain ⟨hsel, hc, he⟩ := h
    rw [← hc, ← he]
    exact ⟨⟨[], by simp⟩, rfl, rfl, rfl, rfl⟩

theorem mainAfterFiles_bound (src_script : Option PathT) (cmd : List String)
    (debug : Bool) (libset : LibrarySet) (host : List Nat) (c1 : Container)
    (scr : PathT) (dry : Bool) (run : Except ExecErr Int) :
    ∃ tail, (mainAfterFiles src_script cmd debug libset host c1 scr dry
      run).container.bound = c1.bound ++ tail := by
  by_cases hE : libset.isEmpty
  · refine ⟨[⟨normalizePath scr, c1.script, FileOptions.READ_ONLY⟩], ?_⟩
    cases dry <;> cases run <;>
      simp [mainAfterFiles, hE, Container.bind_file]
  · cases hsel : select_libraries libset c1
        (mainEntry src_script cmd debug c1) host with
    | error err =>
      refine ⟨[], ?_⟩
      simp [mainAfterFiles, hE, hsel]
    | ok t =>
      obtain ⟨sel, c2, e3⟩ := t
      obtain ⟨⟨t1, hb⟩, hdir, _, _, _⟩ :=
        select_ok_frame _ _ _ _ _ _ _ hsel
      refine ⟨t1 ++ (sel.map (importRecords c2.import_library_dir)).flatten ++
        [⟨normalizePath scr, c2.script, FileOptions.READ_ONLY⟩], ?_⟩
      cases dry <;> cases run <;>
        simp [mainAfterFiles, hE, hsel, import_fold_eq,
          Container.bind_file, hb]

theorem mainAfterFiles_err (src_script : Option PathT) (cmd : List String)
    (debug : Bool) (libset : LibrarySet) (host : List Nat) (c1 : Container)
    (scr : PathT) (dry : Bool) (run : Except ExecErr Int) (err : ExecErr)
    (hne : libset.isEmpty = false)
    (hsel : select_libraries libset c1 (mainEntry src_script cmd debug c1)
      host = .error err) :
    mainAfterFiles src_script cmd debug libset host c1 scr dry run =
      { events := [Ev.getDataEv, Ev.selectEv]
        container := c1
        entry := mainEntry src_script cmd debug c1
        result := .error err } := by
  simp [mainAfterFiles, hne, hsel]

theorem mainAfterFiles_ok (src_script : Option PathT) (cmd : List String)
    (debug : Bool) (libset : LibrarySet) (host : List Nat) (c1 : Container)
    (scr : PathT) (dry : Bool) (run : Except ExecErr Int)
    (sel : LibrarySet) (c2 : Container) (e3 : Entrypoint)
    (hne : libset.isEmpty = false)
    (hsel : select_libraries libset c1 (mainEntry src_script cmd debug c1)
      host = .ok (sel, c2, e3)) :
    (mainAfterFiles src_script cmd debug libset host c1 scr dry
        run).entry =
      { e3 with preload := e3.preload ++ (top_level sel).map fun l =>
          pathPosix (c2.import_library_dir ++ [pathName l.binary_path]) } ∧
    (mainAfterFiles src_script cmd debug libset host c1 scr dry
        run).container.bound =
      c2.bound ++ (sel.map (importRecords c2.import_library_dir)).flatten ++
        [⟨normalizePath scr, c2.script, FileOptions.READ_ONLY⟩] := by
  cases dry <;> cases run <;>
    simp [mainAfterFiles, hne, hsel, import_fold_eq, Container.bind_file]

theorem joinWith_concat (sep : String) (d : List String) (a : String)
    (hd : d ≠ []) :
    joinWith sep (d ++ [a]) = joinWith sep d ++ sep ++ a := by
  induction d with
  | nil => exact absurd rfl hd
  | cons x xs ih =>
    cases xs with
    | nil => rfl
    | cons y ys =>
      have hys : (y :: ys : List String) ≠ [] := by simp
      have step : joinWith sep ((x :: y :: ys) ++ [a]) =
          x ++ sep ++ joinWith sep ((y :: ys) ++ [a]) := rfl
      have rhs : joinWith sep (x :: y :: ys) =
          x ++ sep ++ joinWith sep (y :: ys) := rfl
      rw [step, ih hys, rhs]
      simp [String.append_assoc]

theorem str_append_left_cancel (s t u : String) (h : s ++ t = s ++ u) :
    t = u := by
  have hd := congrArg String.data h
  simp only [String.data_append] at hd
  have hdata := List.append_cancel_left hd
  cases t
  cases u
  exact congrArg String.mk hdata

theorem pathPosix_concat_inj (d : PathT) (a b : String)
    (h : pathPosix (d ++ [a]) = pathPosix (d ++ [b])) : a = b := by
  cases d with
  | nil => simpa [pathPosix, joinWith] using h
  | cons x xs =>
    rw [pathPosix, pathPosix, joinWith_concat _ _ _ (by simp),
      joinWith_concat _ _ _ (by simp)] at h
    exact str_append_left_cancel _ _ _ h

/- ## Worked example data -/

/-- A host dynamic loader (libc family, linker). -/
def hostLinkerLib : Library :=
  { binary_path := ["", "host", "ld-linux.so.2"]
    aliases := []
    dependencies := []
    is_libc_family := true
    is_linker := true }

/-- An MPI-like host library with two aliases, requiring `libfoo`. -/
def exLibMpi : Library :=
  { binary_path := ["", "host", "libmpi.so.12.1"]
    aliases := [["", "host", "libmpi.so.12"], ["", "host", "libmpi.so"]]
    dependencies := ["/host/libfoo.so.1"]
    is_libc_family := false
    is_linker := false }

/-- A dependency of `exLibMpi`, required by no user binary directly. -/
def exLibFoo : Library :=
  { binary_path := ["", "host", "libfoo.so.1"]
    aliases := []
    dependencies := []
    is_libc_family := false
    is_linker := false }

/-- A library whose two aliases live in different directories and share the
file name `libx.so`. -/
def dupAliasLib : Library :=
  { binary_path := ["", "lib", "libx.so.6"]
    aliases := [["", "lib", "libx.so"], ["", "usr", "lib", "libx.so"]]
    dependencies := []
    is_libc_family := false
    is_linker := false }

/-- A fresh container with an empty ledger and guest libc 2.17. -/
def exContainer : Container :=
  { bound := []
    import_library_dir := ["", "etc", "e4s-cl", "hostlibs"]
    libc_v := [2, 17]
    script := ["", "etc", "e4s-cl", "entry.sh"] }

/-- A library set holding two distinct dynamic loaders. -/
def twoLinkerSet : LibrarySet :=
  [hostLinkerLib, { hostLinkerLib with binary_path := ["", "opt", "ld.so"] }]

/- ## Remaining claim theorems -/

/-- C3 counterexample: under OVERLAY, `select_libraries` does not leave the
container's binding ledger unchanged — it binds the host linker, so the
returned container's ledger differs from the input's. -/
theorem C3_counterexample :
    ∃ t : LibrarySet × Container × Entrypoint,
      select_libraries [hostLinkerLib] exContainer Entrypoint.init [2, 31] =
        .ok t ∧ t.2.1.bound ≠ exContainer.bound := by
  refine ⟨([hostLinkerLib],
    { exContainer with bound := [⟨["", "host", "ld-linux.so.2"],
        ["", "etc", "e4s-cl", "hostlibs", "ld-linux.so.2"],
        FileOptions.READ_ONLY⟩] },
    { Entrypoint.init with
        linker := some "/etc/e4s-cl/hostlibs/ld-linux.so.2" }),
    by decide, by decide⟩

/-- C3 (amended): the compatibility decision is pure given its three inputs
except for exactly two effects — it may set the entrypoint's linker field
and, under OVERLAY, it appends one record (the host linker's binding) to
the container's ledger; under FILTER both the container and the entrypoint
are returned unchanged. -/
theorem C3_selection_effects :
    ∀ (ls : LibrarySet) (c : Container) (e : Entrypoint) (host : List Nat),
      (verGt host c.libc_v = false →
        select_libraries ls c e host =
          .ok (ls.filter fun l => !l.is_libc_family, c, e)) ∧
      (∀ linker : Library, verGt host c.libc_v = true →
        linkers ls = [linker] →
        select_libraries ls c e host =
          .ok (ls,
            { c with bound := c.bound ++
                [⟨normalizePath linker.binary_path,
                  c.import_library_dir ++ [pathName linker.binary_path],
                  FileOptions.READ_ONLY⟩] },
            { e with linker := some (pathPosix (c.import_library_dir ++
                [pathName linker.binary_path])) })) :=
  fun ls c e host =>
    ⟨fun h => select_filter_eq ls c e host h,
     fun linker h hl => select_overlay_one ls c e host linker h hl⟩

/-- C4: under FILTER (host not newer) `select_libraries` returns exactly
the input LibrarySet minus its glib view with the Entrypoint unmodified;
under OVERLAY (host newer, one linker) it returns the full unmodified input
LibrarySet with the entrypoint's linker override set to the host linker's
future path inside the container's import directory. -/
theorem C4_filter_overlay_results :
    ∀ (ls : LibrarySet) (c : Container) (e : Entrypoint) (host : List Nat),
      (selectDecision host c.libc_v = CompatibilityDecision.FILTER →
        select_libraries ls c e host =
          .ok (ls.filter fun l => !l.is_libc_family, c, e)) ∧
      (∀ linker : Library,
        selectDecision host c.libc_v = CompatibilityDecision.OVERLAY →
        linkers ls = [linker] →
        ∃ c2 : Container,
          select_libraries ls c e host = .ok (ls, c2,
            { e with linker := some (pathPosix (c.import_library_dir ++
                [pathName linker.binary_path])) })) := by
  intro ls c e host
  constructor
  · intro hd
    cases hv : verGt host c.libc_v with
    | false => exact select_filter_eq ls c e host hv
    | true => simp [selectDecision, hv] at hd
  · intro linker hd hl
    cases hv : verGt host c.libc_v with
    | false => simp [selectDecision, hv] at hd
    | true => exact ⟨_, select_overlay_one ls c e host linker hv hl⟩

/-- C6 counterexample: a Library with two aliases of the same file name in
different directories yields the promised N+1 ledger entries, but their
destination names are not all distinct. -/
theorem C6_counterexample :
    (import_library dupAliasLib exContainer).bound.length =
      dupAliasLib.aliases.length + 1 ∧
    ¬ List.Nodup ((import_library dupAliasLib exContainer).bound.map
        fun r => pathName r.dest) := by decide

/-- C6 (amended): for a Library with N aliases, `import_library` appends
exactly N+1 records — the canonical file and every alias, each bound into
the import directory under its own file name — and the N+1 destination
names are distinct whenever the file names of the canonical path and the
aliases are pairwise distinct. -/
theorem C6_import_library_bindings :
    ∀ (lib : Library) (c : Container),
      (import_library lib c).bound =
        c.bound ++ importRecords c.import_library_dir lib ∧
      (importRecords c.import_library_dir lib).length =
        lib.aliases.length + 1 ∧
      (importRecords c.import_library_dir lib).map
          (fun r => pathName r.dest) =
        (library_links lib).map pathName ∧
      (((library_links lib).map pathName).Nodup →
        ((importRecords c.import_library_dir lib).map fun r =>
          pathName r.dest).Nodup) := by
  intro lib c
  have hmap : (importRecords c.import_library_dir lib).map
      (fun r => pathName r.dest) = (library_links lib).map pathName := by
    simp [importRecords, List.map_map, Function.comp, pathName_concat]
  have hc := import_library_eq lib c
  refine ⟨by rw [hc], by simp [importRecords, library_links], hmap,
    fun h => hmap ▸ h⟩

/-- C2 counterexample: when `--files` paths are given, bind_file calls on
the container are observed before the ambiguous-linker failure is raised —
the run's trace opens with a files bind and only then fails. -/
theorem C2_counterexample :
    (mainExec [["", "data"]] none ["./a.out"] false twoLinkerSet [2, 31]
      exContainer ["", "tmp", "e4s-cl.sh"] false (.ok 0)).result =
        .error (.ambiguousLinker 2) ∧
    (mainExec [["", "data"]] none ["./a.out"] false twoLinkerSet [2, 31]
      exContainer ["", "tmp", "e4s-cl.sh"] false (.ok 0)).events =
      [Ev.bindEv ["", "data"] ["", "data"] FileOptions.READ_WRITE,
       Ev.resolveEv, Ev.getDataEv, Ev.selectEv] := by decide

/-- C2 (amended): if the working LibrarySet contains a number of dynamic
loaders different from exactly one when the overlay path is taken, the run
fails with the fatal ambiguous-linker error before any bind_file arising
from library selection or import is observed: the final ledger and trace
hold exactly the earlier `--files` bindings and nothing else. -/
theorem C2_ambiguous_linker_aborts :
    ∀ (files : List PathT) (src_script : Option PathT) (cmd : List String)
      (debug : Bool) (libset : LibrarySet) (host : List Nat)
      (c0 : Container) (scr : PathT) (dry : Bool) (run : Except ExecErr Int),
      libset.isEmpty = false → verGt host c0.libc_v = true →
      (linkers libset).length ≠ 1 →
      mainExec files src_script cmd debug libset host c0 scr dry run =
        { events := (files.map fun p =>
            Ev.bindEv (normalizePath p) p FileOptions.READ_WRITE) ++
            [Ev.resolveEv, Ev.getDataEv, Ev.selectEv]
          container := { c0 with bound := c0.bound ++ files.map fun p =>
            ⟨normalizePath p, p, FileOptions.READ_WRITE⟩ }
          entry := mainEntry src_script cmd debug (bindFiles files c0)
          result := .error (.ambiguousLinker (linkers libset).length) } := by
  intro files src_script cmd debug libset host c0 scr dry run hne hv hl
  have hguest : (bindFiles files c0).libc_v = c0.libc_v := by
    rw [bindFiles_eq]
  have hsel := select_overlay_err libset (bindFiles files c0)
    (mainEntry src_script cmd debug (bindFiles files c0)) host
    (by rw [hguest]; exact hv) hl
  have herr := mainAfterFiles_err src_script cmd debug libset host
    (bindFiles files c0) scr dry run _ hne hsel
  show { mainAfterFiles src_script cmd debug libset host
      (bindFiles files c0) scr dry run with
    events := bindEvents c0 (bindFiles files c0) ++ Ev.resolveEv ::
      (mainAfterFiles src_script cmd debug libset host (bindFiles files c0)
        scr dry run).events } = _
  rw [herr, bindFiles_eq, bindEvents_append]
  simp [recordEv, List.map_map, Function.comp]

/-- C2 witness: the amended theorem applied at the two-loader set, one
bound file and host libc 2.31 against guest 2.17. -/
theorem C2_ambiguous_linker_aborts_witness :
    mainExec [["", "data"]] none ["./a.out"] false twoLinkerSet [2, 31]
      exContainer ["", "tmp", "e4s-cl.sh"] false (.ok 0) =
      { events := ([["", "data"]].map fun p =>
          Ev.bindEv (normalizePath p) p FileOptions.READ_WRITE) ++
          [Ev.resolveEv, Ev.getDataEv, Ev.selectEv]
        container := { exContainer with bound := exContainer.bound ++
          ([["", "data"]].map fun p =>
            (⟨normalizePath p, p, FileOptions.READ_WRITE⟩ : BindRecord)) }
        entry := mainEntry none ["./a.out"] false
          (bindFiles [["", "data"]] exContainer)
        result := .error (.ambiguousLinker (linkers twoLinkerSet).length) } :=
  C2_ambiguous_linker_aborts [["", "data"]] none ["./a.out"] false
    twoLinkerSet [2, 31] exContainer ["", "tmp", "e4s-cl.sh"] false
    (.ok 0) (by decide) (by decide) (by decide)

/-- C9: `teardown()` is called on the normal and dry-run exits, but when
`container.run` raises (a backend failure or a delivered signal) after
`setup()`, `main` has no protection and the teardown step never runs: the
exit path leaks the generated script, against the spec's scoped-acquisition
guarantee. -/
theorem C9_teardown_skipped_on_run_error :
    (mainExec [] none ["./a.out"] false [hostLinkerLib] [2, 31] exContainer
      ["", "tmp", "e4s-cl.sh"] false
      (.error .backendFailure)).events.contains Ev.setupEv = true ∧
    (mainExec [] none ["./a.out"] false [hostLinkerLib] [2, 31] exContainer
      ["", "tmp", "e4s-cl.sh"] false
      (.error .backendFailure)).events.contains Ev.teardownEv = false ∧
    (mainExec [] none ["./a.out"] false [hostLinkerLib] [2, 31] exContainer
      ["", "tmp", "e4s-cl.sh"] false (.error .backendFailure)).result =
      .error .backendFailure ∧
    (mainExec [] none ["./a.out"] false [hostLinkerLib] [2, 31] exContainer
      ["", "tmp", "e4s-cl.sh"] false (.ok 0)).events.contains
      Ev.teardownEv = true ∧
    (mainExec [] none ["./a.out"] false [hostLinkerLib] [2, 31] exContainer
      ["", "tmp", "e4s-cl.sh"] true (.ok 0)).events.contains
      Ev.teardownEv = true := by decide

/-- C10: every `--files` path is bound READ_WRITE with destination equal to
the source path, and all these bindings — the opening of the run's trace
and of the ledger's growth — are recorded before the library resolution,
the guest introspection and the library selection. -/
theorem C10_files_bound_first :
    ∀ (files : List PathT) (src_script : Option PathT) (cmd : List String)
      (debug : Bool) (libset : LibrarySet) (host : List Nat)
      (c0 : Container) (scr : PathT) (dry : Bool) (run : Except ExecErr Int),
      ∃ rest : List Ev,
        (mainExec files src_script cmd debug libset host c0 scr dry
          run).events =
          (files.map fun p =>
            Ev.bindEv (normalizePath p) p FileOptions.READ_WRITE) ++
            Ev.resolveEv :: rest ∧
        ∃ restB : List BindRecord,
          (mainExec files src_script cmd debug libset host c0 scr dry
            run).container.bound =
            (c0.bound ++ files.map fun p =>
              (⟨normalizePath p, p, FileOptions.READ_WRITE⟩ : BindRecord)) ++
              restB := by
  intro files src_script cmd debug libset host c0 scr dry run
  obtain ⟨tail, htail⟩ := mainAfterFiles_bound src_script cmd debug libset
    host (bindFiles files c0) scr dry run
  refine ⟨(mainAfterFiles src_script cmd debug libset host
    (bindFiles files c0) scr dry run).events, ?_, tail, ?_⟩
  · show bindEvents c0 (bindFiles files c0) ++ Ev.resolveEv :: _ = _
    rw [bindFiles_eq, bindEvents_append]
    simp [recordEv, List.map_map, Function.comp]
  · show (mainAfterFiles src_script cmd debug libset host
      (bindFiles files c0) scr dry run).container.bound = _
    rw [htail, bindFiles_eq]

/-- C5: after selection, exactly the top_level libraries of the
finally-selected LibrarySet are appended to the entrypoint's preload list,
each as its future path inside the import directory; every other selected
library has all its records bound into the import directory but — when its
file name differs from every top-level one — never appears in preload. -/
theorem C5_preload_top_level :
    ∀ (files : List PathT) (src_script : Option PathT) (cmd : List String)
      (debug : Bool) (libset : LibrarySet) (host : List Nat)
      (c0 : Container) (scr : PathT) (dry : Bool) (run : Except ExecErr Int)
      (sel : LibrarySet) (c2 : Container) (e3 : Entrypoint),
      libset.isEmpty = false →
      select_libraries libset (bindFiles files c0)
        (mainEntry src_script cmd debug (bindFiles files c0)) host =
        .ok (sel, c2, e3) →
      ((mainExec files src_script cmd debug libset host c0 scr dry
          run).entry.preload =
        (top_level sel).map fun l =>
          pathPosix (c2.import_library_dir ++ [pathName l.binary_path])) ∧
      (∀ l ∈ sel, ∀ r ∈ importRecords c2.import_library_dir l,
        r ∈ (mainExec files src_script cmd debug libset host c0 scr dry
          run).container.bound) ∧
      (∀ l ∈ sel, l ∉ top_level sel →
        (∀ t ∈ top_level sel,
          pathName l.binary_path ≠ pathName t.binary_path) →
        pathPosix (c2.import_library_dir ++ [pathName l.binary_path]) ∉
          (mainExec files src_script cmd debug libset host c0 scr dry
            run).entry.preload) := by
  intro files src_script cmd debug libset host c0 scr dry run sel c2 e3
    hne hsel
  obtain ⟨hentry, hbound⟩ := mainAfterFiles_ok src_script cmd debug libset
    host (bindFiles files c0) scr dry run sel c2 e3 hne hsel
  have hpre0 : e3.preload = [] := by
    obtain ⟨_, _, _, _, hp⟩ := select_ok_frame _ _ _ _ _ _ _ hsel
    simpa [mainEntry, Entrypoint.init] using hp
  have hExecEntry : (mainExec files src_script cmd debug libset host c0 scr
      dry run).entry = (mainAfterFiles src_script cmd debug libset host
      (bindFiles files c0) scr dry run).entry := rfl
  have hExecCont : (mainExec files src_script cmd debug libset host c0 scr
      dry run).container = (mainAfterFiles src_script cmd debug libset host
      (bindFiles files c0) scr dry run).container := rfl
  refine ⟨?_, ?_, ?_⟩
  · rw [hExecEntry, hentry]
    simp [hpre0]
  · intro l hl r hr
    rw [hExecCont, hbound]
    have hmid : r ∈ (sel.map (importRecords c2.import_library_dir)).flatten :=
      List.mem_flatten.mpr ⟨importRecords c2.import_library_dir l,
        List.mem_map_of_mem _ hl, hr⟩
    simp [hmid]
  · intro l hl hnotTop hnames hmem
    rw [hExecEntry, hentry] at hmem
    simp [hpre0] at hmem
    obtain ⟨t, ht, heq⟩ := hmem
    exact hnames t ht (pathPosix_concat_inj _ _ _ heq.symm)

/-- C5 witness: the preload law applied at a two-library chain under
FILTER (host 2.17 against guest 2.17): only the chain's root is preloaded,
the dependency is bound but absent from preload. -/
theorem C5_preload_top_level_witness :
    ((mainExec [] none ["./a.out"] false [exLibMpi, exLibFoo] [2, 17]
        exContainer ["", "tmp", "e4s-cl.sh"] false (.ok 0)).entry.preload =
      (top_level [exLibMpi, exLibFoo]).map fun l =>
        pathPosix ((bindFiles [] exContainer).import_library_dir ++
          [pathName l.binary_path])) ∧
    (∀ l ∈ [exLibMpi, exLibFoo],
      ∀ r ∈ importRecords (bindFiles [] exContainer).import_library_dir l,
        r ∈ (mainExec [] none ["./a.out"] false [exLibMpi, exLibFoo] [2, 17]
          exContainer ["", "tmp", "e4s-cl.sh"] false
          (.ok 0)).container.bound) ∧
    (∀ l ∈ [exLibMpi, exLibFoo], l ∉ top_level [exLibMpi, exLibFoo] →
      (∀ t ∈ top_level [exLibMpi, exLibFoo],
        pathName l.binary_path ≠ pathName t.binary_path) →
      pathPosix ((bindFiles [] exContainer).import_library_dir ++
          [pathName l.binary_path]) ∉
        (mainExec [] none ["./a.out"] false [exLibMpi, exLibFoo] [2, 17]
          exContainer ["", "tmp", "e4s-cl.sh"] false
          (.ok 0)).entry.preload) :=
  C5_preload_top_level [] none ["./a.out"] false [exLibMpi, exLibFoo]
    [2, 17] exContainer ["", "tmp", "e4s-cl.sh"] false (.ok 0)
    [exLibMpi, exLibFoo] (bindFiles [] exContainer)
    (mainEntry none ["./a.out"] false (bindFiles [] exContainer))
    (by decide) (by decide)
